import Mathlib

/-!
Shallow embedding of the synthetic energy series generator of
`src/seed.ts` (the anomaly-injecting seeding script).

Modelling conventions:
* JavaScript numbers are modelled as exact numbers: quantities that only
  flow through arithmetic (capacity, energies, the sine-curve baseline)
  live in `ℝ`; the random draws that are *compared* against rational
  thresholds or used to index lists (the trigger draw and the selection
  draw) live in `ℚ` so the decision logic stays decidable/executable.
* `Math.random()` returns a fresh uniform draw in `[0,1)`.  Each call of
  the generator consumes at most one draw per purpose, so the draws are
  passed explicitly as a `RandomDraws` record (trigger, selection,
  anomaly magnitude, baseline noise) — the injectable randomness source
  the spec asks for.
* `Math.round` is Lean's `round : ℝ → ℤ` (round half up, identical to
  JavaScript's `Math.round` on the non-negative values arising here).
* The mutable globals `anomalies` / `anomalyCounts` become an explicit
  `GenState` threaded through the generator.  The `description` string of
  an anomaly record is presentation-only (never read by any logic), so an
  `AnomalyRecord` keeps the `type` and `timestamp` fields.
* Timestamps are opaque to the generator; they are modelled as `ℤ`.
-/

set_option autoImplicit false

namespace SolarSeed

/-- The five anomaly categories of `anomalyCounts` in `src/seed.ts`. -/
inductive AnomalyType where
  | NIGHT_GENERATION
  | SUDDEN_DROP
  | OVERPRODUCTION
  | PEAK_HOUR_ZERO
  | IRREGULAR_SPIKE
deriving DecidableEq

/-- The key order of the `anomalyCounts` object literal (the order
`Object.entries` enumerates in JavaScript). -/
def allAnomalyTypes : List AnomalyType :=
  [AnomalyType.NIGHT_GENERATION, AnomalyType.SUDDEN_DROP,
   AnomalyType.OVERPRODUCTION, AnomalyType.PEAK_HOUR_ZERO,
   AnomalyType.IRREGULAR_SPIKE]

/-- The `anomalyCounts` record: occurrence count per anomaly category. -/
structure AnomalyCounts where
  NIGHT_GENERATION : ℕ
  SUDDEN_DROP : ℕ
  OVERPRODUCTION : ℕ
  PEAK_HOUR_ZERO : ℕ
  IRREGULAR_SPIKE : ℕ
deriving DecidableEq

/-- Look up the count of one category. -/
def AnomalyCounts.count (c : AnomalyCounts) : AnomalyType → ℕ
  | AnomalyType.NIGHT_GENERATION => c.NIGHT_GENERATION
  | AnomalyType.SUDDEN_DROP => c.SUDDEN_DROP
  | AnomalyType.OVERPRODUCTION => c.OVERPRODUCTION
  | AnomalyType.PEAK_HOUR_ZERO => c.PEAK_HOUR_ZERO
  | AnomalyType.IRREGULAR_SPIKE => c.IRREGULAR_SPIKE

/-- `anomalyCounts[t]++`: increment one category's count. -/
def AnomalyCounts.incr (c : AnomalyCounts) : AnomalyType → AnomalyCounts
  | AnomalyType.NIGHT_GENERATION => { c with NIGHT_GENERATION := c.NIGHT_GENERATION + 1 }
  | AnomalyType.SUDDEN_DROP => { c with SUDDEN_DROP := c.SUDDEN_DROP + 1 }
  | AnomalyType.OVERPRODUCTION => { c with OVERPRODUCTION := c.OVERPRODUCTION + 1 }
  | AnomalyType.PEAK_HOUR_ZERO => { c with PEAK_HOUR_ZERO := c.PEAK_HOUR_ZERO + 1 }
  | AnomalyType.IRREGULAR_SPIKE => { c with IRREGULAR_SPIKE := c.IRREGULAR_SPIKE + 1 }

/-- Sum of all five category counts. -/
def AnomalyCounts.total (c : AnomalyCounts) : ℕ :=
  c.NIGHT_GENERATION + c.SUDDEN_DROP + c.OVERPRODUCTION +
    c.PEAK_HOUR_ZERO + c.IRREGULAR_SPIKE

def MIN_ANOMALIES_PER_TYPE : ℕ := 5

def MAX_ANOMALIES_PER_TYPE : ℕ := 20

/-- One entry of the append-only `anomalies` log (the human-readable
`description` string is presentation-only and not modelled). -/
structure AnomalyRecord where
  type : AnomalyType
  timestamp : ℤ
deriving DecidableEq

/-- The process-local mutable state of one generation run: the anomaly
log and the per-category quota counts. -/
structure GenState where
  anomalies : List AnomalyRecord
  anomalyCounts : AnomalyCounts
deriving DecidableEq

/-- The all-zero / empty state established at the start of `seedDatabase`
(reset of `anomalyCounts` and `anomalies.length = 0`). -/
def initialState : GenState :=
  { anomalies := [], anomalyCounts := ⟨0, 0, 0, 0, 0⟩ }

/-- The `Math.random()` draws (each uniform in `[0,1)`) one generator call
can consume: the trigger decision, the category selection, the anomaly
magnitude noise, and the baseline curve noise. -/
structure RandomDraws where
  rTrigger : ℚ
  rSelect : ℚ
  rMagnitude : ℝ
  rBaseline : ℝ

/-- `shouldForceAnomaly(totalRecords, currentRecord)`: trigger decision.
Reads the current quota counts; `r` is the `Math.random()` draw consumed
by the comparison that is actually executed. -/
def shouldForceAnomaly (totalRecords currentRecord : ℕ)
    (counts : AnomalyCounts) (r : ℚ) : Bool :=
  let progress : ℚ := (currentRecord : ℚ) / (totalRecords : ℚ)
  let typesNeedingMore : ℕ :=
    (allAnomalyTypes.filter
      (fun t => counts.count t < MIN_ANOMALIES_PER_TYPE)).length
  if progress > 0.7 ∧ 0 < typesNeedingMore then
    decide (r < 0.3)
  else
    decide (r < 0.08)

/-- `availableTypes` inside `selectAnomalyType`: the categories whose
count has not reached the maximum, in `Object.entries` order. -/
def availableTypes (counts : AnomalyCounts) : List AnomalyType :=
  allAnomalyTypes.filter (fun t => counts.count t < MAX_ANOMALIES_PER_TYPE)

/-- `typesNeedingMore` inside `selectAnomalyType`: the available
categories whose count is still below the minimum. -/
def typesNeedingMore (counts : AnomalyCounts) : List AnomalyType :=
  (availableTypes counts).filter
    (fun t => counts.count t < MIN_ANOMALIES_PER_TYPE)

/-- `Math.floor(r * length)`: the random index used for list selection. -/
def randIndex (r : ℚ) (n : ℕ) : ℕ :=
  (Int.floor (r * (n : ℚ))).toNat

/-- `selectAnomalyType()`: pick a category based on the current counts;
`r` is the `Math.random()` draw consumed by the indexing expression that
is actually executed.  Returns `none` for JavaScript `null`. -/
def selectAnomalyType (counts : AnomalyCounts) (r : ℚ) : Option AnomalyType :=
  let available := availableTypes counts
  if available.length = 0 then
    none
  else
    let needing := typesNeedingMore counts
    if 0 < needing.length then
      needing.get? (randIndex r needing.length)
    else
      available.get? (randIndex r available.length)

/-- The inner `normalProduction()` closure: diurnal baseline model.
`randomDraw` is the `Math.random()` draw of its noise factor. -/
noncomputable def normalProduction (hour : ℕ) (capacity : ℝ)
    (randomDraw : ℝ) : ℤ :=
  if hour < 6 ∨ hour > 20 then
    0
  else
    let dayStart : ℝ := 6
    let dayEnd : ℝ := 20
    let dayLength : ℝ := dayEnd - dayStart
    let normalizedHour : ℝ := ((hour : ℝ) - dayStart) / dayLength
    let productionFactor : ℝ := Real.sin (normalizedHour * Real.pi)
    let randomFactor : ℝ := 0.8 + randomDraw * 0.4
    let energyProduced : ℝ := capacity * productionFactor * randomFactor * 2
    round energyProduced

/-- The per-category applicability guard of the `switch` in
`generateEnergyProduction` (the condition of the `if` in each case). -/
def anomalyGuard (t : AnomalyType) (hour : ℕ) (previousEnergy : ℤ) : Bool :=
  match t with
  | AnomalyType.NIGHT_GENERATION => decide (hour < 6 ∨ hour > 20)
  | AnomalyType.SUDDEN_DROP => decide (0 < previousEnergy ∧ 8 ≤ hour ∧ hour ≤ 18)
  | AnomalyType.OVERPRODUCTION => decide (10 ≤ hour ∧ hour ≤ 14)
  | AnomalyType.PEAK_HOUR_ZERO => decide (10 ≤ hour ∧ hour ≤ 14)
  | AnomalyType.IRREGULAR_SPIKE => decide (7 ≤ hour ∧ hour ≤ 17)

/-- `generateEnergyProduction(hour, capacity, timestamp, previousEnergy,
totalRecords, currentRecord)`.  Returns the produced energy together with
the updated log/quota state.  Each execution path of the source calls
`normalProduction()` at most once and `Math.random()` at most once per
purpose, so the hoisted `normal` value with the dedicated `rBaseline`
draw is the value the executed path would compute. -/
noncomputable def generateEnergyProduction (hour : ℕ) (capacity : ℝ)
    (timestamp : ℤ) (previousEnergy : ℤ) (totalRecords currentRecord : ℕ)
    (rnd : RandomDraws) (st : GenState) : ℤ × GenState :=
  let normal : ℤ := normalProduction hour capacity rnd.rBaseline
  if shouldForceAnomaly totalRecords currentRecord st.anomalyCounts rnd.rTrigger then
    match selectAnomalyType st.anomalyCounts rnd.rSelect with
    | none => (normal, st)
    | some AnomalyType.NIGHT_GENERATION =>
        if hour < 6 ∨ hour > 20 then
          let nightEnergy : ℤ := round (capacity * 0.1 * rnd.rMagnitude)
          (nightEnergy,
           { anomalies := st.anomalies ++
               [{ type := AnomalyType.NIGHT_GENERATION, timestamp := timestamp }],
             anomalyCounts := st.anomalyCounts.incr AnomalyType.NIGHT_GENERATION })
        else (normal, st)
    | some AnomalyType.SUDDEN_DROP =>
        if 0 < previousEnergy ∧ 8 ≤ hour ∧ hour ≤ 18 then
          let droppedEnergy : ℤ := round ((previousEnergy : ℝ) * 0.1)
          (droppedEnergy,
           { anomalies := st.anomalies ++
               [{ type := AnomalyType.SUDDEN_DROP, timestamp := timestamp }],
             anomalyCounts := st.anomalyCounts.incr AnomalyType.SUDDEN_DROP })
        else (normal, st)
    | some AnomalyType.OVERPRODUCTION =>
        if 10 ≤ hour ∧ hour ≤ 14 then
          let overEnergy : ℤ :=
            round (capacity * 2.8 * rnd.rMagnitude + capacity * 1.2)
          (overEnergy,
           { anomalies := st.anomalies ++
               [{ type := AnomalyType.OVERPRODUCTION, timestamp := timestamp }],
             anomalyCounts := st.anomalyCounts.incr AnomalyType.OVERPRODUCTION })
        else (normal, st)
    | some AnomalyType.PEAK_HOUR_ZERO =>
        if 10 ≤ hour ∧ hour ≤ 14 then
          (0,
           { anomalies := st.anomalies ++
               [{ type := AnomalyType.PEAK_HOUR_ZERO, timestamp := timestamp }],
             anomalyCounts := st.anomalyCounts.incr AnomalyType.PEAK_HOUR_ZERO })
        else (normal, st)
    | some AnomalyType.IRREGULAR_SPIKE =>
        if 7 ≤ hour ∧ hour ≤ 17 then
          let spikeEnergy : ℤ := round ((normal : ℝ) * (3 + rnd.rMagnitude * 2))
          (spikeEnergy,
           { anomalies := st.anomalies ++
               [{ type := AnomalyType.IRREGULAR_SPIKE, timestamp := timestamp }],
             anomalyCounts := st.anomalyCounts.incr AnomalyType.IRREGULAR_SPIKE })
        else (normal, st)
  else
    (normal, st)

/-- One scheduled interval of a run: its hour of day, its timestamp, and
the random draws its generator call consumes. -/
structure Interval where
  hour : ℕ
  timestamp : ℤ
  rnd : RandomDraws

/-- The record-generation loop of `seedDatabase`: iterate the intervals
in chronological order, threading the record index, the most recent
positive energy value (`previousEnergy`), and the log/quota state. -/
noncomputable def runGenerator (capacity : ℝ) (totalRecords : ℕ) :
    List Interval → ℕ → ℤ → GenState → GenState
  | [], _, _, st => st
  | iv :: rest, currentRecord, previousEnergy, st =>
      let step := generateEnergyProduction iv.hour capacity iv.timestamp
        previousEnergy totalRecords currentRecord iv.rnd st
      runGenerator capacity totalRecords rest (currentRecord + 1)
        (if 0 < step.1 then step.1 else previousEnergy) step.2

end SolarSeed

namespace SolarSeed

lemma mem_allAnomalyTypes (t : AnomalyType) : t ∈ allAnomalyTypes := by
  cases t <;> simp [allAnomalyTypes]

lemma filter_needing_pos_iff (counts : AnomalyCounts) :
    0 < (allAnomalyTypes.filter
      (fun t => counts.count t < MIN_ANOMALIES_PER_TYPE)).length ↔
      ∃ t, counts.count t < MIN_ANOMALIES_PER_TYPE := by
  rw [List.length_pos]
  constructor
  · intro h
    rcases List.exists_mem_of_ne_nil _ h with ⟨t, ht⟩
    exact ⟨t, by simpa using (List.mem_filter.mp ht).2⟩
  · rintro ⟨t, ht⟩
    intro hnil
    have := List.filter_eq_nil_iff.mp hnil t (mem_allAnomalyTypes t)
    simp [ht] at this

lemma mem_availableTypes_iff (counts : AnomalyCounts) (t : AnomalyType) :
    t ∈ availableTypes counts ↔ counts.count t < MAX_ANOMALIES_PER_TYPE := by
  simp [availableTypes, List.mem_filter, mem_allAnomalyTypes]

lemma mem_typesNeedingMore_iff (counts : AnomalyCounts) (t : AnomalyType) :
    t ∈ typesNeedingMore counts ↔
      counts.count t < MAX_ANOMALIES_PER_TYPE ∧
        counts.count t < MIN_ANOMALIES_PER_TYPE := by
  simp [typesNeedingMore, List.mem_filter, mem_availableTypes_iff]

lemma randIndex_lt (r : ℚ) (n : ℕ) (h0 : 0 ≤ r) (h1 : r < 1) (hn : 0 < n) :
    randIndex r n < n := by
  unfold randIndex
  have hfl : (0 : ℤ) ≤ Int.floor (r * (n : ℚ)) := by
    apply Int.floor_nonneg.mpr
    positivity
  rw [Int.toNat_lt hfl, Int.floor_lt]
  push_cast
  calc r * n < 1 * n := by
        apply mul_lt_mul_of_pos_right h1
        exact_mod_cast hn
    _ = n := one_mul _

lemma randIndex_eq (r : ℚ) (n i : ℕ) (hn : 0 < n)
    (hlo : (i : ℚ) / n ≤ r) (hhi : r < ((i : ℚ) + 1) / n) :
    randIndex r n = i := by
  have hnq : (0 : ℚ) < (n : ℚ) := by exact_mod_cast hn
  unfold randIndex
  have : Int.floor (r * (n : ℚ)) = (i : ℤ) := by
    rw [Int.floor_eq_iff]
    constructor
    · push_cast
      calc (i : ℚ) = (i : ℚ) / n * n := by field_simp
        _ ≤ r * n := by
            apply mul_le_mul_of_nonneg_right hlo (le_of_lt hnq)
    · push_cast
      calc r * n < ((i : ℚ) + 1) / n * n := by
            apply mul_lt_mul_of_pos_right hhi hnq
        _ = (i : ℚ) + 1 := by field_simp
  rw [this]
  rfl

lemma selectAnomalyType_eq_none_iff (counts : AnomalyCounts) (r : ℚ)
    (h0 : 0 ≤ r) (h1 : r < 1) :
    selectAnomalyType counts r = none ↔ availableTypes counts = [] := by
  unfold selectAnomalyType
  by_cases hav : (availableTypes counts).length = 0
  · simp [hav, List.length_eq_zero.mp hav]
  · rw [if_neg hav]
    have havpos : 0 < (availableTypes counts).length := Nat.pos_of_ne_zero hav
    by_cases hneed : 0 < (typesNeedingMore counts).length
    · rw [if_pos hneed]
      constructor
      · intro h
        exfalso
        rw [List.get?_eq_none] at h
        exact absurd h (by simpa using randIndex_lt r _ h0 h1 hneed)
      · intro h
        simp [h] at havpos
    · rw [if_neg hneed]
      constructor
      · intro h
        exfalso
        rw [List.get?_eq_none] at h
        exact absurd h (by simpa using randIndex_lt r _ h0 h1 havpos)
      · intro h
        simp [h] at havpos

lemma selectAnomalyType_mem (counts : AnomalyCounts) (r : ℚ) (t : AnomalyType)
    (h : selectAnomalyType counts r = some t) :
    t ∈ availableTypes counts ∧
      (0 < (typesNeedingMore counts).length → t ∈ typesNeedingMore counts) := by
  unfold selectAnomalyType at h
  by_cases hav : (availableTypes counts).length = 0
  · simp [hav] at h
  · rw [if_neg hav] at h
    by_cases hneed : 0 < (typesNeedingMore counts).length
    · rw [if_pos hneed] at h
      have hmem := List.get?_mem h
      exact ⟨(mem_availableTypes_iff counts t).mpr ((mem_typesNeedingMore_iff counts t).mp hmem).1, fun _ => hmem⟩
    · rw [if_neg hneed] at h
      exact ⟨List.get?_mem h, fun hc => absurd hc hneed⟩

end SolarSeed

namespace SolarSeed

lemma selectAnomalyType_needing_get (counts : AnomalyCounts) (r : ℚ) (i : ℕ)
    (hi : i < (typesNeedingMore counts).length)
    (hlo : (i : ℚ) / (typesNeedingMore counts).length ≤ r)
    (hhi : r < ((i : ℚ) + 1) / (typesNeedingMore counts).length) :
    selectAnomalyType counts r =
      some ((typesNeedingMore counts).get ⟨i, hi⟩) := by
  have hpos : 0 < (typesNeedingMore counts).length := Nat.lt_of_le_of_lt (Nat.zero_le i) hi
  have havpos : 0 < (availableTypes counts).length := by
    by_contra hc
    push_neg at hc
    have hnil := List.length_eq_zero.mp (Nat.le_zero.mp hc)
    have : typesNeedingMore counts = [] := by simp [typesNeedingMore, hnil]
    simp [this] at hpos
  unfold selectAnomalyType
  rw [if_neg (Nat.pos_iff_ne_zero.mp havpos), if_pos hpos,
    randIndex_eq r _ i hpos hlo hhi]
  exact List.get?_eq_get hi

lemma selectAnomalyType_available_get (counts : AnomalyCounts) (r : ℚ) (i : ℕ)
    (hneed : (typesNeedingMore counts).length = 0)
    (hi : i < (availableTypes counts).length)
    (hlo : (i : ℚ) / (availableTypes counts).length ≤ r)
    (hhi : r < ((i : ℚ) + 1) / (availableTypes counts).length) :
    selectAnomalyType counts r =
      some ((availableTypes counts).get ⟨i, hi⟩) := by
  have havpos : 0 < (availableTypes counts).length :=
    Nat.lt_of_le_of_lt (Nat.zero_le i) hi
  unfold selectAnomalyType
  rw [if_neg (Nat.pos_iff_ne_zero.mp havpos), if_neg (by simp [hneed]),
    randIndex_eq r _ i havpos hlo hhi]
  exact List.get?_eq_get hi

end SolarSeed

namespace SolarSeed

lemma generateEnergyProduction_state (hour : ℕ) (capacity : ℝ) (timestamp : ℤ)
    (previousEnergy : ℤ) (totalRecords currentRecord : ℕ) (rnd : RandomDraws)
    (st : GenState) :
    (generateEnergyProduction hour capacity timestamp previousEnergy
        totalRecords currentRecord rnd st).2 = st ∨
      ∃ t, selectAnomalyType st.anomalyCounts rnd.rSelect = some t ∧
        anomalyGuard t hour previousEnergy = true ∧
        (generateEnergyProduction hour capacity timestamp previousEnergy
            totalRecords currentRecord rnd st).2 =
          { anomalies := st.anomalies ++ [{ type := t, timestamp := timestamp }],
            anomalyCounts := st.anomalyCounts.incr t } := by
  unfold generateEnergyProduction
  by_cases htrig : shouldForceAnomaly totalRecords currentRecord st.anomalyCounts rnd.rTrigger = true
  · rw [if_pos htrig]
    cases hsel : selectAnomalyType st.anomalyCounts rnd.rSelect with
    | none => left; rfl
    | some t =>
      cases t with
      | NIGHT_GENERATION =>
        by_cases hg : hour < 6 ∨ hour > 20
        · exact Or.inr ⟨AnomalyType.NIGHT_GENERATION, rfl,
            by simp [anomalyGuard, hg], by simp [hg]⟩
        · exact Or.inl (by simp [hg])
      | SUDDEN_DROP =>
        by_cases hg : 0 < previousEnergy ∧ 8 ≤ hour ∧ hour ≤ 18
        · exact Or.inr ⟨AnomalyType.SUDDEN_DROP, rfl,
            by simp [anomalyGuard, hg], by simp [hg]⟩
        · exact Or.inl (by simp [hg])
      | OVERPRODUCTION =>
        by_cases hg : 10 ≤ hour ∧ hour ≤ 14
        · exact Or.inr ⟨AnomalyType.OVERPRODUCTION, rfl,
            by simp [anomalyGuard, hg], by simp [hg]⟩
        · exact Or.inl (by simp [hg])
      | PEAK_HOUR_ZERO =>
        by_cases hg : 10 ≤ hour ∧ hour ≤ 14
        · exact Or.inr ⟨AnomalyType.PEAK_HOUR_ZERO, rfl,
            by simp [anomalyGuard, hg], by simp [hg]⟩
        · exact Or.inl (by simp [hg])
      | IRREGULAR_SPIKE =>
        by_cases hg : 7 ≤ hour ∧ hour ≤ 17
        · exact Or.inr ⟨AnomalyType.IRREGULAR_SPIKE, rfl,
            by simp [anomalyGuard, hg], by simp [hg]⟩
        · exact Or.inl (by simp [hg])
  · rw [if_neg htrig]
    exact Or.inl rfl

end SolarSeed

namespace SolarSeed

lemma count_incr (c : AnomalyCounts) (t u : AnomalyType) :
    (c.incr t).count u = if u = t then c.count u + 1 else c.count u := by
  cases t <;> cases u <;>
    simp [AnomalyCounts.incr, AnomalyCounts.count]

lemma total_incr (c : AnomalyCounts) (t : AnomalyType) :
    (c.incr t).total = c.total + 1 := by
  cases t <;> simp [AnomalyCounts.incr, AnomalyCounts.total] <;> omega

lemma selectAnomalyType_lt_max (counts : AnomalyCounts) (r : ℚ) (t : AnomalyType)
    (h : selectAnomalyType counts r = some t) :
    counts.count t < MAX_ANOMALIES_PER_TYPE :=
  (mem_availableTypes_iff counts t).mp (selectAnomalyType_mem counts r t h).1

lemma step_counts_le (hour : ℕ) (capacity : ℝ) (timestamp : ℤ)
    (previousEnergy : ℤ) (totalRecords currentRecord : ℕ) (rnd : RandomDraws)
    (st : GenState)
    (hle : ∀ u, st.anomalyCounts.count u ≤ MAX_ANOMALIES_PER_TYPE) :
    ∀ u, (generateEnergyProduction hour capacity timestamp previousEnergy
        totalRecords currentRecord rnd st).2.anomalyCounts.count u ≤
      MAX_ANOMALIES_PER_TYPE := by
  rcases generateEnergyProduction_state hour capacity timestamp previousEnergy
      totalRecords currentRecord rnd st with h | ⟨t, hsel, _, hst⟩
  · rw [h]; exact hle
  · intro u
    rw [hst]
    have htlt := selectAnomalyType_lt_max _ _ _ hsel
    simp only [count_incr]
    by_cases hu : u = t
    · subst hu; rw [if_pos rfl]; omega
    · rw [if_neg hu]; exact hle u

lemma step_log_sync (hour : ℕ) (capacity : ℝ) (timestamp : ℤ)
    (previousEnergy : ℤ) (totalRecords currentRecord : ℕ) (rnd : RandomDraws)
    (st : GenState) :
    ((generateEnergyProduction hour capacity timestamp previousEnergy
          totalRecords currentRecord rnd st).2.anomalies.length -
        st.anomalies.length : ℤ) =
      ((generateEnergyProduction hour capacity timestamp previousEnergy
          totalRecords currentRecord rnd st).2.anomalyCounts.total -
        st.anomalyCounts.total : ℤ) ∧
    (∃ tail, (generateEnergyProduction hour capacity timestamp previousEnergy
        totalRecords currentRecord rnd st).2.anomalies =
      st.anomalies ++ tail) ∧
    ∀ u, st.anomalyCounts.count u ≤
      (generateEnergyProduction hour capacity timestamp previousEnergy
        totalRecords currentRecord rnd st).2.anomalyCounts.count u := by
  rcases generateEnergyProduction_state hour capacity timestamp previousEnergy
      totalRecords currentRecord rnd st with h | ⟨t, _, _, hst⟩
  · rw [h]
    exact ⟨by ring, ⟨[], by simp⟩, fun u => le_refl _⟩
  · rw [hst]
    refine ⟨?_, ⟨[{ type := t, timestamp := timestamp }], by simp⟩, ?_⟩
    · simp [total_incr]
    · intro u
      simp only [count_incr]
      by_cases hu : u = t
      · subst hu; rw [if_pos rfl]; omega
      · rw [if_neg hu]

end SolarSeed

namespace SolarSeed

lemma step_sync (hour : ℕ) (capacity : ℝ) (timestamp : ℤ)
    (previousEnergy : ℤ) (totalRecords currentRecord : ℕ) (rnd : RandomDraws)
    (st : GenState)
    (h : st.anomalies.length = st.anomalyCounts.total) :
    (generateEnergyProduction hour capacity timestamp previousEnergy
        totalRecords currentRecord rnd st).2.anomalies.length =
      (generateEnergyProduction hour capacity timestamp previousEnergy
        totalRecords currentRecord rnd st).2.anomalyCounts.total := by
  rcases generateEnergyProduction_state hour capacity timestamp previousEnergy
      totalRecords currentRecord rnd st with he | ⟨t, _, _, hst⟩
  · rw [he]; exact h
  · rw [hst]; simp [total_incr, h]

lemma runGenerator_counts_le (capacity : ℝ) (totalRecords : ℕ)
    (sched : List Interval) :
    ∀ (currentRecord : ℕ) (previousEnergy : ℤ) (st : GenState),
      (∀ u, st.anomalyCounts.count u ≤ MAX_ANOMALIES_PER_TYPE) →
      ∀ u, (runGenerator capacity totalRecords sched currentRecord
          previousEnergy st).anomalyCounts.count u ≤ MAX_ANOMALIES_PER_TYPE := by
  induction sched with
  | nil =>
      intro cr pe st h u
      simpa [runGenerator] using h u
  | cons iv rest ih =>
      intro cr pe st h u
      rw [runGenerator]
      exact ih _ _ _ (step_counts_le _ _ _ _ _ _ _ _ h) u

lemma runGenerator_sync (capacity : ℝ) (totalRecords : ℕ)
    (sched : List Interval) :
    ∀ (currentRecord : ℕ) (previousEnergy : ℤ) (st : GenState),
      st.anomalies.length = st.anomalyCounts.total →
      (runGenerator capacity totalRecords sched currentRecord
          previousEnergy st).anomalies.length =
        (runGenerator capacity totalRecords sched currentRecord
          previousEnergy st).anomalyCounts.total := by
  induction sched with
  | nil =>
      intro cr pe st h
      simpa [runGenerator] using h
  | cons iv rest ih =>
      intro cr pe st h
      rw [runGenerator]
      exact ih _ _ _ (step_sync _ _ _ _ _ _ _ _ h)

lemma runGenerator_mono (capacity : ℝ) (totalRecords : ℕ)
    (sched : List Interval) :
    ∀ (currentRecord : ℕ) (previousEnergy : ℤ) (st : GenState),
      (∃ tail, (runGenerator capacity totalRecords sched currentRecord
          previousEnergy st).anomalies = st.anomalies ++ tail) ∧
      ∀ u, st.anomalyCounts.count u ≤
        (runGenerator capacity totalRecords sched currentRecord
          previousEnergy st).anomalyCounts.count u := by
  induction sched with
  | nil =>
      intro cr pe st
      exact ⟨⟨[], by simp [runGenerator]⟩, fun u => by simp [runGenerator]⟩
  | cons iv rest ih =>
      intro cr pe st
      rw [runGenerator]
      obtain ⟨⟨tail2, htail2⟩, hmono2⟩ := ih (cr + 1)
        (if 0 < (generateEnergyProduction iv.hour capacity iv.timestamp pe
            totalRecords cr iv.rnd st).1 then
          (generateEnergyProduction iv.hour capacity iv.timestamp pe
            totalRecords cr iv.rnd st).1 else pe)
        (generateEnergyProduction iv.hour capacity iv.timestamp pe
          totalRecords cr iv.rnd st).2
      obtain ⟨_, ⟨tail1, htail1⟩, hmono1⟩ :=
        step_log_sync iv.hour capacity iv.timestamp pe totalRecords cr iv.rnd st
      constructor
      · exact ⟨tail1 ++ tail2, by rw [htail2, htail1, List.append_assoc]⟩
      · intro u
        exact le_trans (hmono1 u) (hmono2 u)

end SolarSeed

namespace SolarSeed

lemma round_cast_le_add_half (x : ℝ) : ((round x : ℤ) : ℝ) ≤ x + 1/2 := by
  rw [round_eq]
  have h := Int.floor_le (x + 1/2)
  exact_mod_cast h

lemma round_nonneg_of_nonneg (x : ℝ) (h : 0 ≤ x) : 0 ≤ round x := by
  rw [round_eq]
  exact Int.le_floor.mpr (by push_cast; linarith)

lemma normalProduction_bounds (hour : ℕ) (capacity : ℝ) (r : ℝ)
    (h6 : 6 ≤ hour) (h20 : hour ≤ 20) (hcap : 0 < capacity)
    (hr0 : 0 ≤ r) (hr1 : r < 1) :
    0 ≤ normalProduction hour capacity r ∧
      ((normalProduction hour capacity r : ℤ) : ℝ) <
        capacity * 2 * 1.2 + 1/2 := by
  have hcond : ¬(hour < 6 ∨ hour > 20) := by omega
  unfold normalProduction
  rw [if_neg hcond]
  simp only []
  set x : ℝ := ((hour : ℝ) - 6) / (20 - 6) with hxdef
  have hhour6 : (6 : ℝ) ≤ (hour : ℝ) := by exact_mod_cast h6
  have hhour20 : (hour : ℝ) ≤ 20 := by exact_mod_cast h20
  have hx0 : 0 ≤ x := by
    rw [hxdef]
    apply div_nonneg <;> linarith
  have hx1 : x ≤ 1 := by rw [hxdef]; rw [div_le_one (by norm_num)]; linarith
  have hsin0 : 0 ≤ Real.sin (x * Real.pi) :=
    Real.sin_nonneg_of_nonneg_of_le_pi (by positivity)
      (by nlinarith [Real.pi_pos])
  have hsin1 : Real.sin (x * Real.pi) ≤ 1 := Real.sin_le_one _
  have hrf0 : (0 : ℝ) < 0.8 + r * 0.4 := by nlinarith
  have hrf1 : (0.8 : ℝ) + r * 0.4 < 1.2 := by nlinarith
  have hE0 : 0 ≤ capacity * Real.sin (x * Real.pi) * (0.8 + r * 0.4) * 2 := by
    positivity
  have hE1 : capacity * Real.sin (x * Real.pi) * (0.8 + r * 0.4) * 2 <
      capacity * 2 * 1.2 := by
    have hpos : (0 : ℝ) < capacity * (0.8 + r * 0.4) * 2 := by positivity
    have key := mul_le_mul_of_nonneg_left hsin1 (le_of_lt hpos)
    calc capacity * Real.sin (x * Real.pi) * (0.8 + r * 0.4) * 2
        = capacity * (0.8 + r * 0.4) * 2 * Real.sin (x * Real.pi) := by ring
      _ ≤ capacity * (0.8 + r * 0.4) * 2 * 1 := key
      _ = capacity * (0.8 + r * 0.4) * 2 := by ring
      _ < capacity * 1.2 * 2 := by nlinarith
      _ = capacity * 2 * 1.2 := by ring
  constructor
  · exact round_nonneg_of_nonneg _ hE0
  · calc ((round (capacity * Real.sin (x * Real.pi) * (0.8 + r * 0.4) * 2) : ℤ) : ℝ)
        ≤ capacity * Real.sin (x * Real.pi) * (0.8 + r * 0.4) * 2 + 1/2 :=
          round_cast_le_add_half _
    _ < capacity * 2 * 1.2 + 1/2 := by linarith

end SolarSeed

namespace SolarSeed

lemma gen_sudden_drop_value (hour : ℕ) (capacity : ℝ) (timestamp : ℤ)
    (previousEnergy : ℤ) (totalRecords currentRecord : ℕ) (rnd : RandomDraws)
    (st : GenState)
    (htrig : shouldForceAnomaly totalRecords currentRecord st.anomalyCounts
      rnd.rTrigger = true)
    (hsel : selectAnomalyType st.anomalyCounts rnd.rSelect =
      some AnomalyType.SUDDEN_DROP)
    (hprev : 0 < previousEnergy) (h8 : 8 ≤ hour) (h18 : hour ≤ 18) :
    (generateEnergyProduction hour capacity timestamp previousEnergy
        totalRecords currentRecord rnd st).1 =
      round ((previousEnergy : ℝ) * 0.1) := by
  simp only [generateEnergyProduction, htrig, if_true, hsel]
  rw [if_pos ⟨hprev, h8, h18⟩]

lemma gen_spike_value (hour : ℕ) (capacity : ℝ) (timestamp : ℤ)
    (previousEnergy : ℤ) (totalRecords currentRecord : ℕ) (rnd : RandomDraws)
    (st : GenState)
    (htrig : shouldForceAnomaly totalRecords currentRecord st.anomalyCounts
      rnd.rTrigger = true)
    (hsel : selectAnomalyType st.anomalyCounts rnd.rSelect =
      some AnomalyType.IRREGULAR_SPIKE)
    (h7 : 7 ≤ hour) (h17 : hour ≤ 17) :
    (generateEnergyProduction hour capacity timestamp previousEnergy
        totalRecords currentRecord rnd st).1 =
      round (((normalProduction hour capacity rnd.rBaseline : ℤ) : ℝ) *
        (3 + rnd.rMagnitude * 2)) := by
  simp only [generateEnergyProduction, htrig, if_true, hsel]
  rw [if_pos ⟨h7, h17⟩]

lemma gen_guard_failed (hour : ℕ) (capacity : ℝ) (timestamp : ℤ)
    (previousEnergy : ℤ) (totalRecords currentRecord : ℕ) (rnd : RandomDraws)
    (st : GenState) (t : AnomalyType)
    (htrig : shouldForceAnomaly totalRecords currentRecord st.anomalyCounts
      rnd.rTrigger = true)
    (hsel : selectAnomalyType st.anomalyCounts rnd.rSelect = some t)
    (hguard : anomalyGuard t hour previousEnergy = false) :
    generateEnergyProduction hour capacity timestamp previousEnergy
        totalRecords currentRecord rnd st =
      (normalProduction hour capacity rnd.rBaseline, st) := by
  simp only [generateEnergyProduction, htrig, if_true, hsel]
  cases t <;>
    simp only [anomalyGuard, decide_eq_false_iff_not] at hguard
  case NIGHT_GENERATION => rw [if_neg hguard]
  case SUDDEN_DROP => rw [if_neg hguard]
  case OVERPRODUCTION => rw [if_neg hguard]
  case PEAK_HOUR_ZERO => rw [if_neg hguard, if_neg hguard]
  case IRREGULAR_SPIKE => rw [if_neg hguard]

end SolarSeed

namespace SolarSeed

/-- C1: at every point during a generation run no anomaly category's
occurrence count exceeds MAX_ANOMALIES_PER_TYPE (20): `selectAnomalyType`
only ever returns a category whose current count is strictly below 20,
one generator step keeps every count at most 20, and hence every state
reachable from the run-start reset by the run driver has every category's
count at most 20. -/
theorem C1_max_quota_invariant :
    (∀ (counts : AnomalyCounts) (r : ℚ) (t : AnomalyType),
        selectAnomalyType counts r = some t →
        counts.count t < MAX_ANOMALIES_PER_TYPE) ∧
    (∀ (hour : ℕ) (capacity : ℝ) (timestamp previousEnergy : ℤ)
        (totalRecords currentRecord : ℕ) (rnd : RandomDraws) (st : GenState),
        (∀ u, st.anomalyCounts.count u ≤ MAX_ANOMALIES_PER_TYPE) →
        ∀ u, (generateEnergyProduction hour capacity timestamp previousEnergy
            totalRecords currentRecord rnd st).2.anomalyCounts.count u ≤
          MAX_ANOMALIES_PER_TYPE) ∧
    (∀ (capacity : ℝ) (totalRecords : ℕ) (sched : List Interval)
        (currentRecord : ℕ) (previousEnergy : ℤ) (t : AnomalyType),
        (runGenerator capacity totalRecords sched currentRecord previousEnergy
            initialState).anomalyCounts.count t ≤ MAX_ANOMALIES_PER_TYPE) :=
  ⟨selectAnomalyType_lt_max,
   step_counts_le,
   fun capacity totalRecords sched currentRecord previousEnergy t =>
     runGenerator_counts_le capacity totalRecords sched currentRecord
       previousEnergy initialState
       (fun u => by
         cases u <;>
           norm_num [initialState, AnomalyCounts.count, MAX_ANOMALIES_PER_TYPE])
       t⟩

/-- Witness for C1 at a concrete input: from the all-zero quota state with
selection draw 0 the selector picks NIGHT_GENERATION, whose count is below
the maximum. -/
theorem C1_max_quota_invariant_witness :
    selectAnomalyType ⟨0, 0, 0, 0, 0⟩ 0 = some AnomalyType.NIGHT_GENERATION ∧
      AnomalyCounts.count ⟨0, 0, 0, 0, 0⟩ AnomalyType.NIGHT_GENERATION <
        MAX_ANOMALIES_PER_TYPE := by
  have hsel : selectAnomalyType ⟨0, 0, 0, 0, 0⟩ 0 =
      some AnomalyType.NIGHT_GENERATION := by
    simp [selectAnomalyType, availableTypes, typesNeedingMore, allAnomalyTypes,
      AnomalyCounts.count, randIndex, MIN_ANOMALIES_PER_TYPE,
      MAX_ANOMALIES_PER_TYPE]
  exact ⟨hsel, C1_max_quota_invariant.1 _ 0 _ hsel⟩

/-- C2: for positive totalRecords and a uniform draw r in [0,1), the
trigger decision returns true iff r < 0.3 when progress exceeds 0.7 and
some category's count is below MIN_ANOMALIES_PER_TYPE, and returns true
iff r < 0.08 in every other case. -/
theorem C2_trigger_policy (totalRecords currentRecord : ℕ)
    (counts : AnomalyCounts) (r : ℚ) (htot : 0 < totalRecords)
    (hr0 : 0 ≤ r) (hr1 : r < 1) :
    (((currentRecord : ℚ) / (totalRecords : ℚ) > 0.7 ∧
        ∃ t, counts.count t < MIN_ANOMALIES_PER_TYPE) →
      (shouldForceAnomaly totalRecords currentRecord counts r = true ↔
        r < 0.3)) ∧
    (¬((currentRecord : ℚ) / (totalRecords : ℚ) > 0.7 ∧
        ∃ t, counts.count t < MIN_ANOMALIES_PER_TYPE) →
      (shouldForceAnomaly totalRecords currentRecord counts r = true ↔
        r < 0.08)) := by
  unfold shouldForceAnomaly
  constructor
  · intro h
    rw [if_pos]
    · simp
    · exact ⟨h.1, (filter_needing_pos_iff counts).mpr h.2⟩
  · intro h
    rw [if_neg]
    · simp
    · intro hc
      exact h ⟨hc.1, (filter_needing_pos_iff counts).mp hc.2⟩

/-- Witness for C2 at a concrete input: 8 of 10 records done (progress
0.8 > 0.7), all counts zero (so a category needs more), draw 0.1 < 0.3:
the trigger fires. -/
theorem C2_trigger_policy_witness :
    (0 < 10 ∧ (0 : ℚ) ≤ 1/10 ∧ (1/10 : ℚ) < 1) ∧
      shouldForceAnomaly 10 8 ⟨0, 0, 0, 0, 0⟩ (1/10) = true := by
  refine ⟨⟨by norm_num, by norm_num, by norm_num⟩, ?_⟩
  have h := (C2_trigger_policy 10 8 ⟨0, 0, 0, 0, 0⟩ (1/10) (by norm_num)
    (by norm_num) (by norm_num)).1
  rw [h ⟨by norm_num, ⟨AnomalyType.NIGHT_GENERATION,
    by norm_num [AnomalyCounts.count, MIN_ANOMALIES_PER_TYPE]⟩⟩]
  norm_num

/-- C7: for every hour outside the window [6,20] and every capacity and
noise draw, the diurnal baseline model returns exactly 0. -/
theorem C7_baseline_night_zero (hour : ℕ) (capacity randomDraw : ℝ)
    (h : hour < 6 ∨ hour > 20) :
    normalProduction hour capacity randomDraw = 0 := by
  unfold normalProduction
  rw [if_pos h]

/-- Witness for C7 at a concrete input: hour 2 is outside the daylight
window and the baseline is 0. -/
theorem C7_baseline_night_zero_witness :
    ((2 : ℕ) < 6 ∨ (2 : ℕ) > 20) ∧ normalProduction 2 5000 (1/2) = 0 :=
  ⟨Or.inl (by norm_num),
    C7_baseline_night_zero 2 5000 (1/2) (Or.inl (by norm_num))⟩

end SolarSeed

namespace SolarSeed

/-- C3: for every quota state and uniform draw r in [0,1): the candidate
set is exactly the categories with count < MAX_ANOMALIES_PER_TYPE;
selection yields no category iff that set is empty; when the preferred
subset (count < MIN_ANOMALIES_PER_TYPE) is non-empty the selected
category is the i-th preferred one exactly when r falls in the i-th of
its equal-length subintervals of [0,1) (uniform choice over the preferred
subset), and otherwise the i-th candidate exactly when r falls in the
i-th equal-length subinterval for the candidate list (uniform choice over
all candidates). -/
theorem C3_selection_policy (counts : AnomalyCounts) (r : ℚ)
    (hr0 : 0 ≤ r) (hr1 : r < 1) :
    (∀ t, t ∈ availableTypes counts ↔
        counts.count t < MAX_ANOMALIES_PER_TYPE) ∧
    (selectAnomalyType counts r = none ↔ availableTypes counts = []) ∧
    (∀ i t, (typesNeedingMore counts).get? i = some t →
        (i : ℚ) / (typesNeedingMore counts).length ≤ r →
        r < ((i : ℚ) + 1) / (typesNeedingMore counts).length →
        selectAnomalyType counts r = some t) ∧
    (typesNeedingMore counts = [] →
      ∀ i t, (availableTypes counts).get? i = some t →
        (i : ℚ) / (availableTypes counts).length ≤ r →
        r < ((i : ℚ) + 1) / (availableTypes counts).length →
        selectAnomalyType counts r = some t) := by
  refine ⟨fun t => mem_availableTypes_iff counts t,
    selectAnomalyType_eq_none_iff counts r hr0 hr1, ?_, ?_⟩
  · intro i t hgt hlo hhi
    obtain ⟨hi, hti⟩ := List.get?_eq_some.mp hgt
    rw [selectAnomalyType_needing_get counts r i hi hlo hhi, hti]
  · intro hneed i t hgt hlo hhi
    obtain ⟨hi, hti⟩ := List.get?_eq_some.mp hgt
    rw [selectAnomalyType_available_get counts r i (by rw [hneed]; rfl)
      hi hlo hhi, hti]

/-- Witness for C3 at a concrete input: all counts zero, draw 1/2; the
preferred subset is the full category list, 1/2 lies in [2/5, 3/5), and
the selector returns its element of index 2, OVERPRODUCTION. -/
theorem C3_selection_policy_witness :
    ((0 : ℚ) ≤ 1/2 ∧ (1/2 : ℚ) < 1) ∧
      selectAnomalyType ⟨0, 0, 0, 0, 0⟩ (1/2) =
        some AnomalyType.OVERPRODUCTION := by
  refine ⟨⟨by norm_num, by norm_num⟩, ?_⟩
  have hlist : typesNeedingMore ⟨0, 0, 0, 0, 0⟩ = allAnomalyTypes := by
    simp [typesNeedingMore, availableTypes, allAnomalyTypes,
      AnomalyCounts.count, MIN_ANOMALIES_PER_TYPE, MAX_ANOMALIES_PER_TYPE]
  have h := (C3_selection_policy ⟨0, 0, 0, 0, 0⟩ (1/2) (by norm_num)
    (by norm_num)).2.2.1 2 AnomalyType.OVERPRODUCTION
  exact h (by rw [hlist]; rfl) (by rw [hlist]; norm_num [allAnomalyTypes])
    (by rw [hlist]; norm_num [allAnomalyTypes])

end SolarSeed

namespace SolarSeed

/-- C4: when the trigger fires and a category is selected but that
category's applicability guard fails for the current hour (and
previousEnergy), the call returns the baseline value for this interval
with the state unchanged: nothing is appended to the anomaly log, no
quota count changes, and no other category is tried. -/
theorem C4_guard_failure_frame (hour : ℕ) (capacity : ℝ)
    (timestamp previousEnergy : ℤ) (totalRecords currentRecord : ℕ)
    (rnd : RandomDraws) (st : GenState) (t : AnomalyType)
    (htrig : shouldForceAnomaly totalRecords currentRecord st.anomalyCounts
      rnd.rTrigger = true)
    (hsel : selectAnomalyType st.anomalyCounts rnd.rSelect = some t)
    (hguard : anomalyGuard t hour previousEnergy = false) :
    generateEnergyProduction hour capacity timestamp previousEnergy
        totalRecords currentRecord rnd st =
      (normalProduction hour capacity rnd.rBaseline, st) :=
  gen_guard_failed hour capacity timestamp previousEnergy totalRecords
    currentRecord rnd st t htrig hsel hguard

/-- Witness for C4 at a concrete input: the trigger fires at index 0 with
draw 0, NIGHT_GENERATION is selected, but hour 12 is inside the daylight
window, so the call returns the baseline and leaves the state intact. -/
theorem C4_guard_failure_frame_witness :
    generateEnergyProduction 12 5000 0 0 1000 0 ⟨0, 0, 0, 0⟩ initialState =
      (normalProduction 12 5000 0, initialState) := by
  have htrig : shouldForceAnomaly 1000 0 initialState.anomalyCounts 0 = true := by
    simp [shouldForceAnomaly, initialState, allAnomalyTypes,
      AnomalyCounts.count, MIN_ANOMALIES_PER_TYPE]
    norm_num
  have hsel : selectAnomalyType initialState.anomalyCounts 0 =
      some AnomalyType.NIGHT_GENERATION := by
    simp [selectAnomalyType, initialState, availableTypes, typesNeedingMore,
      allAnomalyTypes, AnomalyCounts.count, randIndex,
      MIN_ANOMALIES_PER_TYPE, MAX_ANOMALIES_PER_TYPE]
  have hguard : anomalyGuard AnomalyType.NIGHT_GENERATION 12 0 = false := by
    simp [anomalyGuard]
  exact C4_guard_failure_frame 12 5000 0 0 1000 0 ⟨0, 0, 0, 0⟩ initialState
    AnomalyType.NIGHT_GENERATION htrig hsel hguard

/-- C5: when IRREGULAR_SPIKE fires at an hour in [7,17] and the freshly
computed baseline is 0, the returned energy is 0 (the zero baseline
yields a zero spike; the value computation performs no division at
all, so no division fault can arise). -/
theorem C5_zero_baseline_spike (hour : ℕ) (capacity : ℝ)
    (timestamp previousEnergy : ℤ) (totalRecords currentRecord : ℕ)
    (rnd : RandomDraws) (st : GenState)
    (htrig : shouldForceAnomaly totalRecords currentRecord st.anomalyCounts
      rnd.rTrigger = true)
    (hsel : selectAnomalyType st.anomalyCounts rnd.rSelect =
      some AnomalyType.IRREGULAR_SPIKE)
    (h7 : 7 ≤ hour) (h17 : hour ≤ 17)
    (hzero : normalProduction hour capacity rnd.rBaseline = 0) :
    (generateEnergyProduction hour capacity timestamp previousEnergy
        totalRecords currentRecord rnd st).1 = 0 := by
  rw [gen_spike_value hour capacity timestamp previousEnergy totalRecords
    currentRecord rnd st htrig hsel h7 h17, hzero]
  simp

/-- Witness for C5 at a concrete input: capacity 0 at hour 7 gives a zero
baseline; with the spike quota still needing more and draw 0 selecting
IRREGULAR_SPIKE, the returned energy is 0. -/
theorem C5_zero_baseline_spike_witness :
    (generateEnergyProduction 7 0 0 0 1000 0 ⟨0, 0, 0, 0⟩
        ⟨[], ⟨5, 5, 5, 5, 4⟩⟩).1 = 0 := by
  have htrig : shouldForceAnomaly 1000 0
      (GenState.anomalyCounts ⟨[], ⟨5, 5, 5, 5, 4⟩⟩) 0 = true := by
    simp [shouldForceAnomaly, allAnomalyTypes, AnomalyCounts.count,
      MIN_ANOMALIES_PER_TYPE]
    norm_num
  have hsel : selectAnomalyType (GenState.anomalyCounts ⟨[], ⟨5, 5, 5, 5, 4⟩⟩)
      0 = some AnomalyType.IRREGULAR_SPIKE := by
    simp [selectAnomalyType, availableTypes, typesNeedingMore,
      allAnomalyTypes, AnomalyCounts.count, randIndex,
      MIN_ANOMALIES_PER_TYPE, MAX_ANOMALIES_PER_TYPE]
  have hzero : normalProduction 7 0 ((⟨0, 0, 0, 0⟩ : RandomDraws).rBaseline)
      = 0 := by
    simp [normalProduction]
  exact C5_zero_baseline_spike 7 0 0 0 1000 0 ⟨0, 0, 0, 0⟩
    ⟨[], ⟨5, 5, 5, 5, 4⟩⟩ htrig hsel (by norm_num) (by norm_num) hzero

/-- C9: whenever SUDDEN_DROP fires (previousEnergy > 0 and hour in
[8,18]), the returned energy equals round(previousEnergy * 0.1), hence is
at most 10 percent of previousEnergy up to rounding. -/
theorem C9_sudden_drop_value (hour : ℕ) (capacity : ℝ)
    (timestamp previousEnergy : ℤ) (totalRecords currentRecord : ℕ)
    (rnd : RandomDraws) (st : GenState)
    (htrig : shouldForceAnomaly totalRecords currentRecord st.anomalyCounts
      rnd.rTrigger = true)
    (hsel : selectAnomalyType st.anomalyCounts rnd.rSelect =
      some AnomalyType.SUDDEN_DROP)
    (hprev : 0 < previousEnergy) (h8 : 8 ≤ hour) (h18 : hour ≤ 18) :
    (generateEnergyProduction hour capacity timestamp previousEnergy
        totalRecords currentRecord rnd st).1 =
      round ((previousEnergy : ℝ) * 0.1) ∧
    (((generateEnergyProduction hour capacity timestamp previousEnergy
        totalRecords currentRecord rnd st).1 : ℝ)) ≤
      (previousEnergy : ℝ) * 0.1 + 1/2 := by
  have h := gen_sudden_drop_value hour capacity timestamp previousEnergy
    totalRecords currentRecord rnd st htrig hsel hprev h8 h18
  refine ⟨h, ?_⟩
  rw [h]
  exact round_cast_le_add_half _

/-- Witness for C9 at the spec's end-to-end scenario: previousEnergy 4000
with SUDDEN_DROP forced at hour 12 produces exactly 400. -/
theorem C9_sudden_drop_value_witness :
    (generateEnergyProduction 12 5000 0 4000 1000 0 ⟨0, 0, 0, 0⟩
        ⟨[], ⟨5, 0, 5, 5, 5⟩⟩).1 = 400 := by
  have htrig : shouldForceAnomaly 1000 0
      (GenState.anomalyCounts ⟨[], ⟨5, 0, 5, 5, 5⟩⟩) 0 = true := by
    simp [shouldForceAnomaly, allAnomalyTypes, AnomalyCounts.count,
      MIN_ANOMALIES_PER_TYPE]
    norm_num
  have hsel : selectAnomalyType (GenState.anomalyCounts ⟨[], ⟨5, 0, 5, 5, 5⟩⟩)
      0 = some AnomalyType.SUDDEN_DROP := by
    simp [selectAnomalyType, availableTypes, typesNeedingMore,
      allAnomalyTypes, AnomalyCounts.count, randIndex,
      MIN_ANOMALIES_PER_TYPE, MAX_ANOMALIES_PER_TYPE]
  have h := (C9_sudden_drop_value 12 5000 0 4000 1000 0 ⟨0, 0, 0, 0⟩
    ⟨[], ⟨5, 0, 5, 5, 5⟩⟩ htrig hsel (by norm_num) (by norm_num)
    (by norm_num)).1
  rw [h, show ((4000 : ℤ) : ℝ) * 0.1 = 400 by norm_num]
  rw [round_eq, Int.floor_eq_iff]
  norm_num

end SolarSeed

namespace SolarSeed

/-- Counterexample to C8 as stated: at hour 13 (sine factor 1), capacity
2 and noise draw 31/32 (random factor 1.1875, still inside [0.8, 1.2)),
the raw product is 4.75 and Math.round lifts it to 5, which exceeds the
claimed bound capacity * 2 * 1.2 = 4.8. -/
theorem C8_counterexample :
    normalProduction 13 2 (31/32) = 5 ∧
      ¬(((normalProduction 13 2 (31/32) : ℤ) : ℝ) ≤ 2 * 2 * 1.2) := by
  have h5 : normalProduction 13 2 (31/32) = 5 := by
    unfold normalProduction
    rw [if_neg (by norm_num)]
    simp only []
    have harg : (((13 : ℕ) : ℝ) - 6) / (20 - 6) * Real.pi = Real.pi / 2 := by
      norm_num
      ring
    rw [harg, Real.sin_pi_div_two]
    rw [show (2 : ℝ) * 1 * (0.8 + 31/32 * 0.4) * 2 = 4.75 by norm_num]
    rw [round_eq, Int.floor_eq_iff]
    norm_num
  refine ⟨h5, ?_⟩
  rw [h5]
  norm_num

/-- C8 amended: for hour in [6,20], capacity > 0 and a uniform noise draw
r in [0,1), the baseline is non-negative and strictly below
capacity * 2 * 1.2 + 1/2 (the raw product is below 2.4 * capacity, and
rounding can add at most 1/2). -/
theorem C8_amended_baseline_bounds (hour : ℕ) (capacity r : ℝ)
    (h6 : 6 ≤ hour) (h20 : hour ≤ 20) (hcap : 0 < capacity)
    (hr0 : 0 ≤ r) (hr1 : r < 1) :
    0 ≤ normalProduction hour capacity r ∧
      ((normalProduction hour capacity r : ℤ) : ℝ) <
        capacity * 2 * 1.2 + 1/2 :=
  normalProduction_bounds hour capacity r h6 h20 hcap hr0 hr1

/-- Witness for the amended C8 at a concrete input: hour 6 (sine factor
0) with capacity 5000 and draw 0. -/
theorem C8_amended_baseline_bounds_witness :
    ((6 : ℕ) ≤ 6 ∧ (6 : ℕ) ≤ 20 ∧ (0 : ℝ) < 5000 ∧ (0 : ℝ) ≤ 0 ∧
        (0 : ℝ) < 1) ∧
      0 ≤ normalProduction 6 5000 0 ∧
        ((normalProduction 6 5000 0 : ℤ) : ℝ) < 5000 * 2 * 1.2 + 1/2 :=
  ⟨⟨le_refl 6, by norm_num, by norm_num, le_refl 0, by norm_num⟩,
    C8_amended_baseline_bounds 6 5000 0 (le_refl 6) (by norm_num)
      (by norm_num) (le_refl 0) (by norm_num)⟩

end SolarSeed

namespace SolarSeed

/-- A trigger draw of 1/2 never fires: 1/2 is at least 0.3 and 0.08. -/
lemma shouldForceAnomaly_half (totalRecords currentRecord : ℕ)
    (counts : AnomalyCounts) :
    shouldForceAnomaly totalRecords currentRecord counts (1/2) = false := by
  unfold shouldForceAnomaly
  dsimp only
  split
  · simp only [decide_eq_false_iff_not]
    norm_num
  · simp only [decide_eq_false_iff_not]
    norm_num

/-- A generator step whose trigger draw is 1/2 leaves the state intact. -/
lemma generateEnergyProduction_half (hour : ℕ) (capacity : ℝ)
    (timestamp previousEnergy : ℤ) (totalRecords currentRecord : ℕ)
    (rnd : RandomDraws) (st : GenState) (hq : rnd.rTrigger = 1/2) :
    generateEnergyProduction hour capacity timestamp previousEnergy
        totalRecords currentRecord rnd st =
      (normalProduction hour capacity rnd.rBaseline, st) := by
  unfold generateEnergyProduction
  rw [hq, shouldForceAnomaly_half]
  simp

/-- A run all of whose trigger draws are 1/2 never changes the state. -/
lemma runGenerator_quiet (capacity : ℝ) (totalRecords : ℕ)
    (sched : List Interval)
    (hq : ∀ iv ∈ sched, iv.rnd.rTrigger = 1/2) :
    ∀ (currentRecord : ℕ) (previousEnergy : ℤ) (st : GenState),
      runGenerator capacity totalRecords sched currentRecord previousEnergy
        st = st := by
  induction sched with
  | nil =>
      intro cr pe st
      simp [runGenerator]
  | cons iv rest ih =>
      intro cr pe st
      rw [runGenerator,
        generateEnergyProduction_half iv.hour capacity iv.timestamp pe
          totalRecords cr iv.rnd st (hq iv (by simp))]
      exact ih (fun x hx => hq x (List.mem_cons_of_mem _ hx)) _ _ _

/-- A 500-interval schedule (2-hour cadence, increasing timestamps) all
of whose trigger draws are 1/2. -/
def quietSchedule : List Interval :=
  (List.range 500).map (fun i => ⟨2 * (i % 12), (i : ℤ), ⟨1/2, 0, 0, 0⟩⟩)

/-- Counterexample to C6 as stated: this 500-interval run driven by the
run driver ends with SUDDEN_DROP (indeed every category) at count 0,
below the claimed minimum of 5: the trigger policy gives no deterministic
lower bound. -/
theorem C6_counterexample :
    quietSchedule.length = 500 ∧
      (runGenerator 5000 500 quietSchedule 0 0
          initialState).anomalyCounts.count AnomalyType.SUDDEN_DROP <
        MIN_ANOMALIES_PER_TYPE := by
  constructor
  · simp [quietSchedule]
  · rw [runGenerator_quiet 5000 500 quietSchedule ?hq 0 0 initialState]
    · norm_num [initialState, AnomalyCounts.count, MIN_ANOMALIES_PER_TYPE]
    case hq =>
      intro iv hiv
      simp only [quietSchedule, List.mem_map, List.mem_range] at hiv
      obtain ⟨i, _, rfl⟩ := hiv
      rfl

/-- C6 amended: over a run of at least 500 intervals (indeed any run)
starting from the reset state, every category ends with its count in
[0, MAX_ANOMALIES_PER_TYPE]; the lower bound MIN_ANOMALIES_PER_TYPE is
only a statistical target of the trigger bias, not a guarantee. -/
theorem C6_amended_final_counts (capacity : ℝ) (totalRecords : ℕ)
    (sched : List Interval) (hlen : 500 ≤ sched.length)
    (currentRecord : ℕ) (previousEnergy : ℤ) (t : AnomalyType) :
    (runGenerator capacity totalRecords sched currentRecord previousEnergy
        initialState).anomalyCounts.count t ≤ MAX_ANOMALIES_PER_TYPE :=
  runGenerator_counts_le capacity totalRecords sched currentRecord
    previousEnergy initialState
    (fun u => by
      cases u <;>
        norm_num [initialState, AnomalyCounts.count, MAX_ANOMALIES_PER_TYPE])
    t

/-- Witness for the amended C6 on the concrete 500-interval schedule. -/
theorem C6_amended_final_counts_witness :
    500 ≤ quietSchedule.length ∧
      (runGenerator 5000 500 quietSchedule 0 0
          initialState).anomalyCounts.count AnomalyType.NIGHT_GENERATION ≤
        MAX_ANOMALIES_PER_TYPE :=
  ⟨by simp [quietSchedule],
    C6_amended_final_counts 5000 500 quietSchedule (by simp [quietSchedule])
      0 0 AnomalyType.NIGHT_GENERATION⟩

end SolarSeed

namespace SolarSeed

/-- C10: each generator call either leaves the log and every count
unchanged, or appends exactly one record to the log and increments
exactly one category's count by one; consequently along any run the log
length always equals the sum of the five counts (given it did at the
start, as it does at the run-start reset), and neither the log nor any
count ever shrinks. -/
theorem C10_log_quota_sync :
    (∀ (hour : ℕ) (capacity : ℝ) (timestamp previousEnergy : ℤ)
        (totalRecords currentRecord : ℕ) (rnd : RandomDraws) (st : GenState),
        (generateEnergyProduction hour capacity timestamp previousEnergy
            totalRecords currentRecord rnd st).2 = st ∨
          ∃ t, (generateEnergyProduction hour capacity timestamp
              previousEnergy totalRecords currentRecord rnd st).2.anomalies =
            st.anomalies ++ [{ type := t, timestamp := timestamp }] ∧
            (generateEnergyProduction hour capacity timestamp previousEnergy
              totalRecords currentRecord rnd st).2.anomalyCounts =
              st.anomalyCounts.incr t) ∧
    (∀ (capacity : ℝ) (totalRecords : ℕ) (sched : List Interval)
        (currentRecord : ℕ) (previousEnergy : ℤ) (st : GenState),
        st.anomalies.length = st.anomalyCounts.total →
        (runGenerator capacity totalRecords sched currentRecord
            previousEnergy st).anomalies.length =
          (runGenerator capacity totalRecords sched currentRecord
            previousEnergy st).anomalyCounts.total) ∧
    (∀ (capacity : ℝ) (totalRecords : ℕ) (sched : List Interval)
        (currentRecord : ℕ) (previousEnergy : ℤ) (st : GenState),
        (∃ tail, (runGenerator capacity totalRecords sched currentRecord
            previousEnergy st).anomalies = st.anomalies ++ tail) ∧
        ∀ t, st.anomalyCounts.count t ≤
          (runGenerator capacity totalRecords sched currentRecord
            previousEnergy st).anomalyCounts.count t) := by
  refine ⟨?_, runGenerator_sync, runGenerator_mono⟩
  intro hour capacity timestamp previousEnergy totalRecords currentRecord rnd st
  rcases generateEnergyProduction_state hour capacity timestamp previousEnergy
      totalRecords currentRecord rnd st with h | ⟨t, _, _, hst⟩
  · exact Or.inl h
  · exact Or.inr ⟨t, by rw [hst], by rw [hst]⟩

/-- Witness for C10 at a concrete input: the run-start reset state has a
synchronized log and counts, and after a one-interval run at hour 12 the
log length still equals the sum of the counts. -/
theorem C10_log_quota_sync_witness :
    initialState.anomalies.length = initialState.anomalyCounts.total ∧
      (runGenerator 5000 1000 [⟨12, 7, ⟨0, 0, 0, 0⟩⟩] 0 0
          initialState).anomalies.length =
        (runGenerator 5000 1000 [⟨12, 7, ⟨0, 0, 0, 0⟩⟩] 0 0
          initialState).anomalyCounts.total :=
  ⟨rfl, C10_log_quota_sync.2.1 5000 1000 [⟨12, 7, ⟨0, 0, 0, 0⟩⟩] 0 0
    initialState rfl⟩

end SolarSeed
